import Mathlib

/-!
Shallow embedding of `src/src/component/SkateParkMap.jsx` (the single source
file of the repository).

The component's React state hooks become the fields of `AppState`.  Event
handlers become pure state-transition functions.  The asynchronous network
interactions of `geocodeLocation` and `fetchRoute` are embedded by passing an
explicit `World` that maps each request to the remote response; the functions
return, alongside the new state, the ordered list of network requests issued
and the ordered list of console log entries emitted.  A JavaScript value that
may be `null`/`undefined` becomes an `Option`; a `fetch`/`res.json()` that may
throw becomes a `FetchResult`; a runtime fault (such as reading `.geometry` of
`undefined`) inside a `try` block is embedded as the control transfer to the
corresponding `catch` handler.  JavaScript numbers are modelled as `Rat`
(no arithmetic is performed on them in the embedded code, only copying).
-/

/-- A `(longitude, latitude)` coordinate pair, as produced by the geocoder
(`data.features[0].geometry.coordinates` is `[lon, lat]`). -/
structure Coordinates where
  longitude : Rat
  latitude : Rat
deriving DecidableEq, Repr

/-- The viewport state hook: camera position plus dimensions, initialised in
the `useState` call at the top of the component. -/
structure Viewport where
  latitude : Rat
  longitude : Rat
  width : String
  height : String
  zoom : Rat
  bearing : Rat
  pitch : Rat
deriving DecidableEq, Repr

/-- One record of the bundled `skateboard-parks.json` dataset: the fields the
component reads (`properties.PARK_ID`, `properties.NAME`,
`properties.DESCRIPTIO`, `geometry.coordinates`). -/
structure ParkFeature where
  parkId : Nat
  name : String
  descriptio : String
  coordinates : Coordinates
deriving DecidableEq, Repr

/-- A route geometry: the ordered coordinate path returned by the directions
service (`geometries=geojson`). -/
abbrev Geometry := List Coordinates

/-- The component's state hooks gathered into one record:
`viewport`, `selectedPark`, `userPin`, `startLocation`, `endLocation`,
`route`. -/
structure AppState where
  viewport : Viewport
  selectedPark : Option ParkFeature
  userPin : Option Coordinates
  startLocation : String
  endLocation : String
  route : Option Geometry
deriving DecidableEq, Repr

/-- The hardcoded `defaultLocation` constant. -/
def defaultLocation : Coordinates :=
  { longitude := -75.6903, latitude := 45.4211 }

/-- The initial values of all state hooks. -/
def initialAppState : AppState :=
  { viewport :=
      { latitude := defaultLocation.latitude
        longitude := defaultLocation.longitude
        width := "100vw"
        height := "100vh"
        zoom := 10
        bearing := 0
        pitch := 0 }
    selectedPark := none
    userPin := none
    startLocation := ""
    endLocation := ""
    route := none }

/-- Outcome of one remote HTTP interaction from the caller's point of view:
either a parsed value, or a thrown error (network failure or JSON parse
failure). -/
inductive FetchResult (α : Type) where
  | ok : α → FetchResult α
  | thrown : FetchResult α
deriving DecidableEq, Repr

/-- One console log entry, one constructor per `console.log`/`console.error`
call site in the source. -/
inductive LogEntry where
  /-- `console.log("Geocoded <location>:", coords)` on geocode success. -/
  | geocodedInfo : String → Coordinates → LogEntry
  /-- `console.error("No results found for location: <location>")`. -/
  | noResults : String → LogEntry
  /-- `console.error("Error fetching geocode for location: <location>", error)`
  in `geocodeLocation`'s catch block. -/
  | geocodeFetchError : String → LogEntry
  /-- `console.error("Error fetching route:", errorData)` on a non-ok
  directions response, carrying the response body. -/
  | routeHttpError : String → LogEntry
  /-- `console.error("Geocoding failed for one or both locations.")`. -/
  | geocodingFailed : LogEntry
  /-- `console.error("Error in geocoding or fetching route:", error)` in
  `fetchRoute`'s catch block. -/
  | fetchRouteCatch : LogEntry
deriving DecidableEq, Repr

/-- One outgoing network request, identified by endpoint and payload. -/
inductive NetworkCall where
  /-- `GET api.mapbox.com/geocoding/v5/mapbox.places/<location>.json`. -/
  | geocodeReq : String → NetworkCall
  /-- `GET api.mapbox.com/directions/v5/mapbox/driving/<start>;<end>`,
  carrying the two coordinate pairs in request order. -/
  | directionsReq : Coordinates → Coordinates → NetworkCall
deriving DecidableEq, Repr

/-- Whether a request targets the directions endpoint. -/
def NetworkCall.isDirections : NetworkCall → Bool
  | .directionsReq _ _ => true
  | .geocodeReq _ => false

/-- The remote geocoding response as `geocodeLocation` consumes it:
`none` when the parsed JSON has no `features` array, otherwise the list of
candidate features, each reduced to its `geometry.coordinates`. -/
abbrev GeocodeResponse := Option (List Coordinates)

/-- The remote directions response as `fetchRoute` consumes it. -/
inductive DirectionsResponse where
  /-- `res.ok` is true; the parsed body's `routes` array, each route reduced
  to its `geometry`. -/
  | ok : List Geometry → DirectionsResponse
  /-- `res.ok` is false; the parsed error body. -/
  | httpError : String → DirectionsResponse
  /-- The `fetch` (or body parse) itself threw. -/
  | thrown : DirectionsResponse
deriving DecidableEq, Repr

/-- The environment of remote services: what each request would receive. -/
structure World where
  geocode : String → FetchResult GeocodeResponse
  directions : Coordinates → Coordinates → DirectionsResponse

/-- `geocodeLocation(location)`: issues one geocoding request; if
`data.features` exists and is non-empty, logs and returns the first
candidate's coordinates; otherwise logs an error and returns `null`; any
thrown error is caught, logged, and surfaced as `null`.  Returns the
resolved coordinates (or `none`) together with the emitted log entries; the
single network request it issues is recorded by the caller (`fetchRouteRun`)
as `NetworkCall.geocodeReq location`. -/
def geocodeLocation (location : String) (resp : FetchResult GeocodeResponse) :
    Option Coordinates × List LogEntry :=
  match resp with
  | .thrown => (none, [.geocodeFetchError location])
  | .ok none => (none, [.noResults location])
  | .ok (some []) => (none, [.noResults location])
  | .ok (some (c :: _)) => (some c, [.geocodedInfo location c])

/-- `fetchRoute()`: if both `startLocation` and `endLocation` are truthy
(non-empty), geocode both (two geocoding requests, in order); if both
resolve, issue one directions request with the coordinates in (start, end)
order; on an ok response take `data.routes[0].geometry` — when `routes` is
empty this faults (`undefined.geometry`) and control lands in the catch
block; on a non-ok response log the error body; if either geocode resolved
to `null`, log and stop without calling the directions endpoint.  When
either input is empty the whole body is skipped.  Returns the new state,
the ordered requests issued, and the ordered log entries. -/
def fetchRouteRun (w : World) (s : AppState) :
    AppState × List NetworkCall × List LogEntry :=
  if s.startLocation ≠ "" ∧ s.endLocation ≠ "" then
    let gs := geocodeLocation s.startLocation (w.geocode s.startLocation)
    let ge := geocodeLocation s.endLocation (w.geocode s.endLocation)
    let geoCalls : List NetworkCall :=
      [.geocodeReq s.startLocation, .geocodeReq s.endLocation]
    let logs := gs.2 ++ ge.2
    match gs.1, ge.1 with
    | some startCoords, some endCoords =>
      let calls := geoCalls ++ [.directionsReq startCoords endCoords]
      match w.directions startCoords endCoords with
      | .ok [] => (s, calls, logs ++ [.fetchRouteCatch])
      | .ok (g :: _) => ({ s with route := some g }, calls, logs)
      | .httpError body => (s, calls, logs ++ [.routeHttpError body])
      | .thrown => (s, calls, logs ++ [.fetchRouteCatch])
    | _, _ => (s, geoCalls, logs ++ [.geocodingFailed])
  else
    (s, [], [])

/-- `handleMapClick(event)`: destructures `event.lngLat` as
`[longitude, latitude]` and replaces `userPin` with
`{latitude, longitude}`. -/
def handleMapClick (lngLat : Rat × Rat) (s : AppState) : AppState :=
  { s with userPin := some { longitude := lngLat.1, latitude := lngLat.2 } }

/-- The `onClick` handler of a park `Marker`'s button:
`setSelectedPark(park)` (after `evt.preventDefault()`, which touches no
state). -/
def markerOnClick (park : ParkFeature) (s : AppState) : AppState :=
  { s with selectedPark := some park }

/-- The geolocation success callback: merges the device coordinates and
`zoom: 12` into the previous viewport. -/
def geolocationSuccess (deviceLat deviceLon : Rat) (s : AppState) : AppState :=
  { s with viewport :=
      { s.viewport with latitude := deviceLat, longitude := deviceLon, zoom := 12 } }

/-- The `keydown` listener: on Escape, clears `selectedPark`. -/
def escapeListener (key : String) (s : AppState) : AppState :=
  if key = "Escape" then { s with selectedPark := none } else s

/-! ### Concrete demo environments, used by the witness theorems -/

/-- A concrete geocode result for a start query. -/
def demoStart : Coordinates := { longitude := -76, latitude := 45 }

/-- A concrete geocode result for an end query. -/
def demoEnd : Coordinates := { longitude := -79, latitude := 44 }

/-- A concrete route geometry. -/
def demoGeometry : Geometry := [demoStart, demoEnd]

/-- A world in which two known queries geocode, anything else yields an empty
feature list, and the directions service returns one route candidate. -/
def demoWorldOk : World :=
  { geocode := fun loc =>
      if loc = "Ottawa" then .ok (some [demoStart])
      else if loc = "Toronto" then .ok (some [demoEnd])
      else .ok (some [])
    directions := fun _ _ => .ok [demoGeometry] }

/-- A world whose geocoder always returns an empty feature list. -/
def demoWorldNoGeo : World :=
  { geocode := fun _ => .ok (some [])
    directions := fun _ _ => .ok [demoGeometry] }

/-- A world whose directions service answers with a non-ok HTTP status. -/
def demoWorldHttpErr : World :=
  { geocode := demoWorldOk.geocode
    directions := fun _ _ => .httpError "Bad Request" }

/-- A world whose directions service answers ok with zero route candidates. -/
def demoWorldNoRoutes : World :=
  { geocode := demoWorldOk.geocode
    directions := fun _ _ => .ok [] }

/-- A state with both route inputs filled in. -/
def demoStateOT : AppState :=
  { initialAppState with startLocation := "Ottawa", endLocation := "Toronto" }

/-! ### Claim theorems -/

/-- C1: for non-empty `startText`/`endText` that both geocode successfully,
`fetchRoute` issues exactly one directions request, carrying the two resolved
coordinate pairs in (start, end) order, and on a successful response commits
the geometry of the first returned route candidate to the route slot. -/
theorem fetchRoute_success_one_directions_call (w : World) (s : AppState)
    (startCoords endCoords : Coordinates) (g : Geometry) (gs : List Geometry)
    (hs : s.startLocation ≠ "") (he : s.endLocation ≠ "")
    (h1 : (geocodeLocation s.startLocation (w.geocode s.startLocation)).1 = some startCoords)
    (h2 : (geocodeLocation s.endLocation (w.geocode s.endLocation)).1 = some endCoords)
    (hd : w.directions startCoords endCoords = .ok (g :: gs)) :
    (fetchRouteRun w s).2.1.filter NetworkCall.isDirections
        = [.directionsReq startCoords endCoords]
    ∧ (fetchRouteRun w s).1.route = some g := by
  simp [fetchRouteRun, hs, he, h1, h2, hd, NetworkCall.isDirections]

/-- Witness for C1 at a concrete world and state. -/
theorem fetchRoute_success_one_directions_call_witness :
    (fetchRouteRun demoWorldOk demoStateOT).2.1.filter NetworkCall.isDirections
        = [.directionsReq demoStart demoEnd]
    ∧ (fetchRouteRun demoWorldOk demoStateOT).1.route = some demoGeometry :=
  fetchRoute_success_one_directions_call demoWorldOk demoStateOT demoStart demoEnd
    demoGeometry [] (by decide) (by decide) (by decide) (by decide) (by decide)

/-- C2: when `startLocation` or `endLocation` is empty, `fetchRoute` is a
no-op: no network calls, no logs, and the state (route included) is
unchanged. -/
theorem fetchRoute_empty_noop (w : World) (s : AppState)
    (h : s.startLocation = "" ∨ s.endLocation = "") :
    fetchRouteRun w s = (s, [], []) := by
  have hn : ¬(s.startLocation ≠ "" ∧ s.endLocation ≠ "") := by tauto
  simp [fetchRouteRun, hn]

/-- Witness for C2 at a concrete world and the initial (empty-input) state. -/
theorem fetchRoute_empty_noop_witness :
    fetchRouteRun demoWorldOk initialAppState = (initialAppState, [], []) :=
  fetchRoute_empty_noop demoWorldOk initialAppState (by decide)

/-- C3: with both inputs non-empty, if geocoding either endpoint yields
`null`, `fetchRoute` aborts: the directions endpoint is never called, the
failure is logged, and the state is unchanged. -/
theorem fetchRoute_geocode_abort (w : World) (s : AppState)
    (hs : s.startLocation ≠ "") (he : s.endLocation ≠ "")
    (h : (geocodeLocation s.startLocation (w.geocode s.startLocation)).1 = none
       ∨ (geocodeLocation s.endLocation (w.geocode s.endLocation)).1 = none) :
    (fetchRouteRun w s).1 = s
    ∧ (fetchRouteRun w s).2.1.filter NetworkCall.isDirections = []
    ∧ LogEntry.geocodingFailed ∈ (fetchRouteRun w s).2.2 := by
  rcases h with h | h
  · rcases h2 : (geocodeLocation s.endLocation (w.geocode s.endLocation)).1 with _ | c
      <;> simp [fetchRouteRun, hs, he, h, h2, NetworkCall.isDirections]
  · rcases h1 : (geocodeLocation s.startLocation (w.geocode s.startLocation)).1 with _ | c
      <;> simp [fetchRouteRun, hs, he, h, h1, NetworkCall.isDirections]

/-- Witness for C3 at a world whose geocoder finds nothing. -/
theorem fetchRoute_geocode_abort_witness :
    (fetchRouteRun demoWorldNoGeo demoStateOT).1 = demoStateOT
    ∧ (fetchRouteRun demoWorldNoGeo demoStateOT).2.1.filter NetworkCall.isDirections = []
    ∧ LogEntry.geocodingFailed ∈ (fetchRouteRun demoWorldNoGeo demoStateOT).2.2 :=
  fetchRoute_geocode_abort demoWorldNoGeo demoStateOT (by decide) (by decide) (by decide)

/-- C4: `geocodeLocation` returns the first candidate's coordinate pair when
the remote feature list is non-empty, `none` when it is empty or absent, and
on a thrown network/parse failure logs the error and returns `none`; it is a
total function, so no exception ever propagates to the caller. -/
theorem geocodeLocation_first_or_none (location : String) (c : Coordinates)
    (cs : List Coordinates) :
    (geocodeLocation location (.ok (some (c :: cs)))).1 = some c
    ∧ (geocodeLocation location (.ok (some []))).1 = none
    ∧ (geocodeLocation location (.ok none)).1 = none
    ∧ geocodeLocation location .thrown = (none, [.geocodeFetchError location]) := by
  simp [geocodeLocation]

/-- C5: on a non-ok directions response, `fetchRoute` logs the response body,
does not retry (exactly one directions request), and leaves the state (route
included) unchanged. -/
theorem fetchRoute_httpError_logged (w : World) (s : AppState)
    (startCoords endCoords : Coordinates) (body : String)
    (hs : s.startLocation ≠ "") (he : s.endLocation ≠ "")
    (h1 : (geocodeLocation s.startLocation (w.geocode s.startLocation)).1 = some startCoords)
    (h2 : (geocodeLocation s.endLocation (w.geocode s.endLocation)).1 = some endCoords)
    (hd : w.directions startCoords endCoords = .httpError body) :
    (fetchRouteRun w s).1 = s
    ∧ (fetchRouteRun w s).2.1.filter NetworkCall.isDirections
        = [.directionsReq startCoords endCoords]
    ∧ LogEntry.routeHttpError body ∈ (fetchRouteRun w s).2.2 := by
  simp [fetchRouteRun, hs, he, h1, h2, hd, NetworkCall.isDirections]

/-- Witness for C5 at a world whose directions service rejects the request. -/
theorem fetchRoute_httpError_logged_witness :
    (fetchRouteRun demoWorldHttpErr demoStateOT).1 = demoStateOT
    ∧ (fetchRouteRun demoWorldHttpErr demoStateOT).2.1.filter NetworkCall.isDirections
        = [.directionsReq demoStart demoEnd]
    ∧ LogEntry.routeHttpError "Bad Request" ∈ (fetchRouteRun demoWorldHttpErr demoStateOT).2.2 :=
  fetchRoute_httpError_logged demoWorldHttpErr demoStateOT demoStart demoEnd
    "Bad Request" (by decide) (by decide) (by decide) (by decide) (by decide)

/-- C6: a map click at `(lon, lat)` replaces `userPin` with exactly
`{latitude := lat, longitude := lon}`, whatever the prior pin was, and
changes nothing else. -/
theorem handleMapClick_sets_userPin (lon lat : Rat) (s : AppState) :
    handleMapClick (lon, lat) s
      = { s with userPin := some { longitude := lon, latitude := lat } } := rfl

/-- C7: marker activation is idempotent on `selectedPark`: activating the
same park twice in a row yields the same state as activating it once. -/
theorem markerOnClick_idempotent (park : ParkFeature) (s : AppState) :
    markerOnClick park (markerOnClick park s) = markerOnClick park s := rfl

/-- C8: when the directions response is ok but carries zero route candidates,
the unguarded first-route access faults; the fault is caught by the
surrounding try/catch, which logs it, and the state (route included) is
unchanged — `fetchRoute` never propagates the exception. -/
theorem fetchRoute_empty_routes_fault_caught (w : World) (s : AppState)
    (startCoords endCoords : Coordinates)
    (hs : s.startLocation ≠ "") (he : s.endLocation ≠ "")
    (h1 : (geocodeLocation s.startLocation (w.geocode s.startLocation)).1 = some startCoords)
    (h2 : (geocodeLocation s.endLocation (w.geocode s.endLocation)).1 = some endCoords)
    (hd : w.directions startCoords endCoords = .ok []) :
    (fetchRouteRun w s).1 = s
    ∧ LogEntry.fetchRouteCatch ∈ (fetchRouteRun w s).2.2 := by
  simp [fetchRouteRun, hs, he, h1, h2, hd]

/-- Witness for C8 at a world whose directions service returns zero routes. -/
theorem fetchRoute_empty_routes_fault_caught_witness :
    (fetchRouteRun demoWorldNoRoutes demoStateOT).1 = demoStateOT
    ∧ LogEntry.fetchRouteCatch ∈ (fetchRouteRun demoWorldNoRoutes demoStateOT).2.2 :=
  fetchRoute_empty_routes_fault_caught demoWorldNoRoutes demoStateOT demoStart demoEnd
    (by decide) (by decide) (by decide) (by decide) (by decide)

/-- C9: every execution of `fetchRoute` — no-op, geocode abort, HTTP failure,
thrown error, or success — modifies at most the route slot: viewport, pin,
selected park, and both text inputs are unchanged. -/
theorem fetchRoute_frame (w : World) (s : AppState) :
    (fetchRouteRun w s).1.viewport = s.viewport
    ∧ (fetchRouteRun w s).1.userPin = s.userPin
    ∧ (fetchRouteRun w s).1.selectedPark = s.selectedPark
    ∧ (fetchRouteRun w s).1.startLocation = s.startLocation
    ∧ (fetchRouteRun w s).1.endLocation = s.endLocation := by
  by_cases hc : s.startLocation ≠ "" ∧ s.endLocation ≠ ""
  · rcases h1 : (geocodeLocation s.startLocation (w.geocode s.startLocation)).1 with _ | cs
    · rcases h2 : (geocodeLocation s.endLocation (w.geocode s.endLocation)).1 with _ | ce
        <;> simp [fetchRouteRun, hc, h1, h2]
    · rcases h2 : (geocodeLocation s.endLocation (w.geocode s.endLocation)).1 with _ | ce
      · simp [fetchRouteRun, hc, h1, h2]
      · rcases hd : w.directions cs ce with rs | b | _
        · cases rs <;> simp [fetchRouteRun, hc, h1, h2, hd]
        · simp [fetchRouteRun, hc, h1, h2, hd]
        · simp [fetchRouteRun, hc, h1, h2, hd]
  · simp [fetchRouteRun, hc]

/-- C10: a successful geolocation result sets the viewport's latitude and
longitude to the device coordinates and forces zoom to 12, leaving bearing,
pitch, width, and height unchanged. -/
theorem geolocationSuccess_viewport_update (deviceLat deviceLon : Rat) (s : AppState) :
    (geolocationSuccess deviceLat deviceLon s).viewport.latitude = deviceLat
    ∧ (geolocationSuccess deviceLat deviceLon s).viewport.longitude = deviceLon
    ∧ (geolocationSuccess deviceLat deviceLon s).viewport.zoom = 12
    ∧ (geolocationSuccess deviceLat deviceLon s).viewport.bearing = s.viewport.bearing
    ∧ (geolocationSuccess deviceLat deviceLon s).viewport.pitch = s.viewport.pitch
    ∧ (geolocationSuccess deviceLat deviceLon s).viewport.width = s.viewport.width
    ∧ (geolocationSuccess deviceLat deviceLon s).viewport.height = s.viewport.height :=
  ⟨rfl, rfl, rfl, rfl, rfl, rfl, rfl⟩
